import Mathlib

/-!
# Verification of wayfire's move-drag interface

Shallow embedding of `src/plugins/common/wayfire/plugins/common/move-drag-interface.hpp`
(the drag-coordination core: geometry helpers, the `scale_around_grab_t` transform and
the `core_drag_t` state machine), together with proofs of the specified properties.

Modelling conventions:
- C++ `int` coordinates are modelled as `Int` (the claims stay far below the 32-bit
  range, so wrap-around never matters for the quantities involved).
- C++ `double` arithmetic in the geometry helpers is modelled exactly with `ℚ`;
  `std::floor` followed by an `(int)` cast becomes `Int.floor`.
- Views and outputs are opaque handles, modelled as `Nat` identifiers; nullable
  pointers become `Option Nat`.
- The output-layout projection `wf::get_core().output_layout->get_output_coords_at`
  is external to this header; it is passed in as an abstract function
  `layout : point_t → Option Nat` (`none` models a null result).
- Signal emission (`emit_signal`) is modelled by returning the list of emitted
  signals alongside the new state.  External side effects with no bearing on the
  claims (wobbly physics calls, cursor setting, render hooks, damage, the
  compositor-level `focus_output` request) are not part of the state.
-/

namespace wf

/-- `wf::point_t`: integer point in output-layout coordinates. -/
structure point_t where
  x : Int
  y : Int
deriving DecidableEq, Repr

/-- `wf::pointf_t`: floating point, modelled exactly over ℚ. -/
structure pointf_t where
  x : ℚ
  y : ℚ
deriving DecidableEq, Repr

/-- `wf::dimensions_t`. -/
structure dimensions_t where
  width : Int
  height : Int
deriving DecidableEq, Repr

/-- `wf::geometry_t`: a rectangle with origin and size. -/
structure geometry_t where
  x : Int
  y : Int
  width : Int
  height : Int
deriving DecidableEq, Repr

namespace move_drag

/--
`find_geometry_around(size, grab, relative)`: the rectangle of the given size
positioned so that `grab` lands at fractional offset `relative` inside it.
C++: `{grab.x - (int)std::floor(relative.x * size.width), ..., size.width, size.height}`.
-/
def find_geometry_around (size : dimensions_t) (grab : point_t) (relative : pointf_t) :
    geometry_t :=
  { x := grab.x - Int.floor (relative.x * (size.width : ℚ))
    y := grab.y - Int.floor (relative.y * (size.height : ℚ))
    width := size.width
    height := size.height }

/--
`find_relative_grab(view, grab)`: the fractional offset of `grab` within `view`.
C++: `{1.0 * (grab.x - view.x) / view.width, 1.0 * (grab.y - view.y) / view.height}`.
-/
def find_relative_grab (view : geometry_t) (grab : point_t) : pointf_t :=
  { x := ((grab.x - view.x : Int) : ℚ) / (view.width : ℚ)
    y := ((grab.y - view.y : Int) : ℚ) / (view.height : ℚ) }

/--
`scale_around_grab_t`: the transformer used while dragging.  Its state is the
animated scale factor (modelled by its current value), the fixed relative grab
fraction and the mutable grab position (output-layout coordinates).
-/
structure scale_around_grab_t where
  scale_factor : ℚ
  relative_grab : pointf_t
  grab_position : point_t
deriving DecidableEq, Repr

/--
`scale_around_grab_t::get_bounding_box`.
C++: `int w = std::floor(view.width / scale_factor); int h = std::floor(view.height / scale_factor);
return find_geometry_around({w, h}, grab_position, relative_grab);`
(the `region` argument is unused in the source as well).
-/
def scale_around_grab_t.get_bounding_box (tr : scale_around_grab_t)
    (view : geometry_t) (_region : geometry_t) : geometry_t :=
  let w : Int := Int.floor ((view.width : ℚ) / tr.scale_factor)
  let h : Int := Int.floor ((view.height : ℚ) / tr.scale_factor)
  find_geometry_around ⟨w, h⟩ tr.grab_position tr.relative_grab

/-- The name under which the drag transformer is installed on the view. -/
def move_drag_transformer : String := "move-drag-transformer"

/-- `drag_options_t`, with the field defaults of the source. -/
structure drag_options_t where
  enable_snap_off : Bool := false
  snap_off_threshold : Int := 0
  initial_scale : ℚ := 1
deriving DecidableEq, Repr

/--
The notifications `core_drag_t` emits (`emit_signal`), with their payloads:
`focus-output` (`drag_focus_output_signal`), `snap-off` (`snap_off_signal`) and
`done` (`drag_done_signal`).  Outputs and views are opaque `Nat` handles and
nullable pointers are `Option Nat`.
-/
inductive signal_t where
  | focus_output (previous_focus_output : Option Nat) (focus_output : Option Nat)
  | snap_off (focus_output : Option Nat)
  | done (focused_output : Option Nat) (view : Option Nat)
      (relative_grab : pointf_t) (grab_position : point_t)
deriving DecidableEq, Repr

/-- Is this signal a snap-off notification? -/
def signal_t.is_snap_off : signal_t → Bool
  | .snap_off _ => true
  | _ => false

/-- Is this signal a focus-change (`focus-output`) notification? -/
def signal_t.is_focus_change : signal_t → Bool
  | .focus_output _ _ => true
  | _ => false

/-- Number of snap-off notifications in an emission list. -/
def snap_off_count (sigs : List signal_t) : Nat :=
  (sigs.filter signal_t.is_snap_off).length

/-- Number of focus-change notifications in an emission list. -/
def focus_change_count (sigs : List signal_t) : Nat :=
  (sigs.filter signal_t.is_focus_change).length

/--
The state owned by `core_drag_t`.  The `transformer` observer pointer is
modelled by storing the transformer state inline (dereferences are only ever
performed while a session is active, when the pointer is valid).
-/
structure core_drag_t where
  view : Option Nat := none
  current_output : Option Nat := none
  transformer : scale_around_grab_t := ⟨1, ⟨0, 0⟩, ⟨0, 0⟩⟩
  params : drag_options_t := {}
  grab_origin : point_t := ⟨0, 0⟩
  view_held_in_place : Bool := false
deriving DecidableEq, Repr

/--
Squared displacement of `to` from the recorded grab origin.
C++: `auto current_offset = to - grab_origin; const int dst_sq = current_offset.x *
current_offset.x + current_offset.y * current_offset.y;`
-/
def core_drag_t.dst_sq (s : core_drag_t) (tp : point_t) : Int :=
  (tp.x - s.grab_origin.x) * (tp.x - s.grab_origin.x) +
    (tp.y - s.grab_origin.y) * (tp.y - s.grab_origin.y)

/-- C++: `const int thresh_sq = params.snap_off_threshold * params.snap_off_threshold;` -/
def core_drag_t.thresh_sq (s : core_drag_t) : Int :=
  s.params.snap_off_threshold * s.params.snap_off_threshold

/--
`core_drag_t::update_current_output`.  The output-layout projection
`get_output_coords_at` (external to this header) is the abstract `layout`
argument; the compositor-level `focus_output` request is an external side
effect and not part of the modelled state.
-/
def core_drag_t.update_current_output (s : core_drag_t) (layout : point_t → Option Nat)
    (grab : point_t) : core_drag_t × List signal_t :=
  let output := layout grab
  if output ≠ s.current_output then
    ({ s with current_output := output },
     [signal_t.focus_output s.current_output output])
  else
    (s, [])

/--
`core_drag_t::handle_motion`.  The wobbly-physics calls (`move_wobbly`,
`set_tiled_wobbly`) are external opaque services and are not modelled.
-/
def core_drag_t.handle_motion (s : core_drag_t) (layout : point_t → Option Nat)
    (tp : point_t) : core_drag_t × List signal_t :=
  let step1 : core_drag_t × List signal_t :=
    if s.view_held_in_place then
      if s.thresh_sq ≤ s.dst_sq tp then
        ({ s with view_held_in_place := false },
         [signal_t.snap_off s.current_output])
      else
        (s, [])
    else
      (s, [])
  let s1 := step1.1
  let s2 :=
    if s1.view_held_in_place then s1
    else { s1 with transformer := { s1.transformer with grab_position := tp } }
  let step3 := s2.update_current_output layout tp
  (step3.1, step1.2 ++ step3.2)

/-- Iterated `handle_motion` over a list of motion points, collecting all emissions. -/
def core_drag_t.handle_motions (s : core_drag_t) (layout : point_t → Option Nat) :
    List point_t → core_drag_t × List signal_t
  | [] => (s, [])
  | p :: ps =>
    let r := s.handle_motion layout p
    let rest := r.1.handle_motions layout ps
    (rest.1, r.2 ++ rest.2)

/--
The state of one view that the drag core reads or writes: its bounding box in
output-local coordinates (`get_bounding_box`), its visibility flag
(`set_visible`), its named transformer stack (`add_transformer` /
`pop_transformer`), and the layout origin of the output it belongs to
(`origin(view->get_output()->get_layout_geometry())`).
-/
structure view_state_t where
  bbox : geometry_t
  visible : Bool
  transformers : List String
  output_origin : point_t
deriving DecidableEq, Repr

/--
The world the drag core operates in: the `core_drag_t` singleton state plus the
compositor's view registry.  Per-output overlay hook data (`output_data_t`) and
the render pipeline are external to the claims and are not part of this state.
-/
structure world_t where
  drag : core_drag_t
  views : Nat → view_state_t

/--
`core_drag_t::start_drag(view, grab_position, relative, options)` (the
four-argument overload).  Wobbly calls, cursor setting, damage and the
per-output `output_data_t` installation are external effects; the unmap signal
subscription is modelled by `world_t.on_view_unmap` below.
-/
def world_t.start_drag (w : world_t) (view : Nat) (grab_position : point_t)
    (relative : pointf_t) (options : drag_options_t) : world_t :=
  let tr : scale_around_grab_t :=
    { scale_factor := options.initial_scale
      relative_grab := relative
      grab_position := grab_position }
  let views1 := fun i =>
    if i = view then
      { w.views view with
        visible := false
        transformers := move_drag_transformer :: (w.views view).transformers }
    else w.views i
  { w with
    drag := { w.drag with
      view := some view
      params := options
      transformer := tr
      grab_origin := if options.enable_snap_off then grab_position else w.drag.grab_origin
      view_held_in_place := if options.enable_snap_off then true else w.drag.view_held_in_place }
    views := views1 }

/--
`core_drag_t::start_drag(view, grab_position, options)` (the three-argument
overload): derives the relative grab from the view's bounding box translated to
output-layout coordinates.
C++: `auto bbox = view->get_bounding_box() + wf::origin(view->get_output()->get_layout_geometry());
start_drag(view, grab_position, find_relative_grab(bbox, grab_position), options);`
-/
def world_t.start_drag_auto (w : world_t) (view : Nat) (grab_position : point_t)
    (options : drag_options_t) : world_t :=
  let vs := w.views view
  let bbox : geometry_t :=
    { vs.bbox with x := vs.bbox.x + vs.output_origin.x, y := vs.bbox.y + vs.output_origin.y }
  w.start_drag view grab_position (find_relative_grab bbox grab_position) options

/-- `core_drag_t::handle_motion` lifted to the world (it only touches the drag state). -/
def world_t.handle_motion (w : world_t) (layout : point_t → Option Nat) (tp : point_t) :
    world_t × List signal_t :=
  let r := w.drag.handle_motion layout tp
  ({ w with drag := r.1 }, r.2)

/--
`core_drag_t::handle_input_released`: captures the `drag_done_signal` payload,
restores the view's visibility, pops the drag transformer, resets the session
state and finally emits the `done` notification.  Per-output damage/hook
teardown and the wobbly calls are external effects.
-/
def world_t.handle_input_released (w : world_t) : world_t × List signal_t :=
  let data := signal_t.done w.drag.current_output w.drag.view
      w.drag.transformer.relative_grab w.drag.transformer.grab_position
  let views1 :=
    match w.drag.view with
    | some v => fun i =>
        if i = v then
          { w.views v with
            visible := true
            transformers := (w.views v).transformers.erase move_drag_transformer }
        else w.views i
    | none => w.views
  ({ w with
     drag := { w.drag with
       view := none
       current_output := none
       view_held_in_place := false }
     views := views1 },
   [data])

/--
The `on_view_unmap` signal connection:
C++: `wf::signal_connection_t on_view_unmap = [=] (auto *ev) { handle_input_released(); };`
-/
def world_t.on_view_unmap (w : world_t) : world_t × List signal_t :=
  w.handle_input_released

/-! Concrete instances used to exercise the model on the spec's scenarios. -/

/-- An output layout in which no point projects onto any output. -/
def no_output_layout : point_t → Option Nat := fun _ => none

/-- An output layout with a single output covering the whole plane. -/
def single_output_layout : point_t → Option Nat := fun _ => some 0

/-- A 200×200 view at the origin of output 0, visible, with an empty transformer stack. -/
def sample_view : view_state_t :=
  { bbox := ⟨0, 0, 200, 200⟩
    visible := true
    transformers := []
    output_origin := ⟨0, 0⟩ }

/-- An idle world containing `sample_view` everywhere. -/
def sample_world : world_t :=
  { drag := {}, views := fun _ => sample_view }

/-- A dragging session that is focused on output 0 and not held in place. -/
def focused_drag_state : core_drag_t :=
  { view := some 0
    current_output := some 0 }

/--
A dragging session held in place with snap-off threshold 10 and grab origin
(0, 0), as in the spec's end-to-end scenario 2.
-/
def held_drag_state : core_drag_t :=
  { view := some 0
    current_output := some 0
    transformer := ⟨1, ⟨1/2, 1/2⟩, ⟨0, 0⟩⟩
    params := { enable_snap_off := true, snap_off_threshold := 10 }
    grab_origin := ⟨0, 0⟩
    view_held_in_place := true }

end move_drag

end wf

namespace wf

namespace move_drag

/--
Claim C1, counterexample: the round-trip of the two geometry helpers does not
return the original relative fraction.  For size 10×10, grab (7, 7) and
fraction (11/20, 11/20), `find_geometry_around` floors `0.55 * 10` to 5, so
`find_relative_grab` recomputes the fraction as exactly (1/2, 1/2): the error
is 1/20 = 0.05 per component, far beyond floating-point tolerance (the model's
ℚ arithmetic is exact, so no rounding of the C++ doubles is involved at these
values).  The grab point (7, 7) lies inside the produced rectangle
{2, 2, 10, 10}.
-/
theorem C1_counterexample :
    find_relative_grab (find_geometry_around ⟨10, 10⟩ ⟨7, 7⟩ ⟨11/20, 11/20⟩) ⟨7, 7⟩ =
        (⟨1/2, 1/2⟩ : pointf_t) ∧
      find_relative_grab (find_geometry_around ⟨10, 10⟩ ⟨7, 7⟩ ⟨11/20, 11/20⟩) ⟨7, 7⟩ ≠
        (⟨11/20, 11/20⟩ : pointf_t) := by
  constructor <;>
    norm_num [find_geometry_around, find_relative_grab, pointf_t.mk.injEq]

/--
Claim C1, amended: for every size with positive dimensions, every grab point
and every fraction, recomputing `find_relative_grab` on the rectangle built by
`find_geometry_around` returns the floor-quantized fraction
`⌊R * S⌋ / S` componentwise — which lies within `1/S` strictly below-inclusive
of the original `R` (`R - 1/S < R' ≤ R`), and equals `R` exactly only when
`R * S` is an integer.  The round-trip is thus exact up to the integer-pixel
quantization of the rectangle origin, not up to floating-point tolerance.
-/
theorem C1_round_trip (size : dimensions_t) (grab : point_t) (relative : pointf_t)
    (hw : 0 < size.width) (hh : 0 < size.height) :
    (find_relative_grab (find_geometry_around size grab relative) grab).x =
        ((⌊relative.x * (size.width : ℚ)⌋ : Int) : ℚ) / (size.width : ℚ) ∧
      (find_relative_grab (find_geometry_around size grab relative) grab).y =
        ((⌊relative.y * (size.height : ℚ)⌋ : Int) : ℚ) / (size.height : ℚ) ∧
      relative.x - 1 / (size.width : ℚ) <
        (find_relative_grab (find_geometry_around size grab relative) grab).x ∧
      (find_relative_grab (find_geometry_around size grab relative) grab).x ≤ relative.x ∧
      relative.y - 1 / (size.height : ℚ) <
        (find_relative_grab (find_geometry_around size grab relative) grab).y ∧
      (find_relative_grab (find_geometry_around size grab relative) grab).y ≤ relative.y := by
  have hwQ : (0 : ℚ) < (size.width : ℚ) := by exact_mod_cast hw
  have hhQ : (0 : ℚ) < (size.height : ℚ) := by exact_mod_cast hh
  have hx : (find_relative_grab (find_geometry_around size grab relative) grab).x =
      ((⌊relative.x * (size.width : ℚ)⌋ : Int) : ℚ) / (size.width : ℚ) := by
    simp [find_relative_grab, find_geometry_around, sub_sub_cancel]
  have hy : (find_relative_grab (find_geometry_around size grab relative) grab).y =
      ((⌊relative.y * (size.height : ℚ)⌋ : Int) : ℚ) / (size.height : ℚ) := by
    simp [find_relative_grab, find_geometry_around, sub_sub_cancel]
  refine ⟨hx, hy, ?_, ?_, ?_, ?_⟩
  · rw [hx, lt_div_iff₀ hwQ]
    calc (relative.x - 1 / (size.width : ℚ)) * (size.width : ℚ)
        = relative.x * (size.width : ℚ) - 1 := by field_simp
      _ < _ := Int.sub_one_lt_floor _
  · rw [hx, div_le_iff₀ hwQ]
    exact Int.floor_le _
  · rw [hy, lt_div_iff₀ hhQ]
    calc (relative.y - 1 / (size.height : ℚ)) * (size.height : ℚ)
        = relative.y * (size.height : ℚ) - 1 := by field_simp
      _ < _ := Int.sub_one_lt_floor _
  · rw [hy, div_le_iff₀ hhQ]
    exact Int.floor_le _

/-- Witness for `C1_round_trip` at size 10×10, grab (7, 7), fraction (1/2, 1/2). -/
theorem C1_round_trip_witness :
    (0 : Int) < 10 ∧
      ((find_relative_grab (find_geometry_around ⟨10, 10⟩ ⟨7, 7⟩ ⟨1/2, 1/2⟩) ⟨7, 7⟩).x =
          ((⌊(1/2 : ℚ) * ((10 : Int) : ℚ)⌋ : Int) : ℚ) / ((10 : Int) : ℚ) ∧
        (find_relative_grab (find_geometry_around ⟨10, 10⟩ ⟨7, 7⟩ ⟨1/2, 1/2⟩) ⟨7, 7⟩).y =
          ((⌊(1/2 : ℚ) * ((10 : Int) : ℚ)⌋ : Int) : ℚ) / ((10 : Int) : ℚ) ∧
        (1/2 : ℚ) - 1 / ((10 : Int) : ℚ) <
          (find_relative_grab (find_geometry_around ⟨10, 10⟩ ⟨7, 7⟩ ⟨1/2, 1/2⟩) ⟨7, 7⟩).x ∧
        (find_relative_grab (find_geometry_around ⟨10, 10⟩ ⟨7, 7⟩ ⟨1/2, 1/2⟩) ⟨7, 7⟩).x ≤
          (1/2 : ℚ) ∧
        (1/2 : ℚ) - 1 / ((10 : Int) : ℚ) <
          (find_relative_grab (find_geometry_around ⟨10, 10⟩ ⟨7, 7⟩ ⟨1/2, 1/2⟩) ⟨7, 7⟩).y ∧
        (find_relative_grab (find_geometry_around ⟨10, 10⟩ ⟨7, 7⟩ ⟨1/2, 1/2⟩) ⟨7, 7⟩).y ≤
          (1/2 : ℚ)) :=
  ⟨by norm_num, C1_round_trip ⟨10, 10⟩ ⟨7, 7⟩ ⟨1/2, 1/2⟩ (by norm_num) (by norm_num)⟩

/-! Helper lemmas about `update_current_output` and `handle_motion`. -/

/-- `dst_sq` only depends on the grab origin. -/
theorem dst_sq_congr (s1 s2 : core_drag_t) (p : point_t)
    (h : s1.grab_origin = s2.grab_origin) : s1.dst_sq p = s2.dst_sq p := by
  unfold core_drag_t.dst_sq
  rw [h]

/-- `thresh_sq` only depends on the drag parameters. -/
theorem thresh_sq_congr (s1 s2 : core_drag_t)
    (h : s1.params = s2.params) : s1.thresh_sq = s2.thresh_sq := by
  unfold core_drag_t.thresh_sq
  rw [h]

/-- If the projection agrees with the current focus, `update_current_output` is a no-op. -/
theorem update_current_output_of_eq (s : core_drag_t) (layout : point_t → Option Nat)
    (g : point_t) (h : layout g = s.current_output) :
    s.update_current_output layout g = (s, []) := by
  simp [core_drag_t.update_current_output, h]

/-- After `update_current_output`, the focused output is the projection result. -/
theorem update_fst_current (s : core_drag_t) (layout : point_t → Option Nat) (g : point_t) :
    (s.update_current_output layout g).1.current_output = layout g := by
  by_cases h : layout g = s.current_output <;>
    simp [core_drag_t.update_current_output, h]

/-- `update_current_output` never touches the transformer. -/
theorem update_fst_transformer (s : core_drag_t) (layout : point_t → Option Nat) (g : point_t) :
    (s.update_current_output layout g).1.transformer = s.transformer := by
  by_cases h : layout g = s.current_output <;>
    simp [core_drag_t.update_current_output, h]

/-- `update_current_output` never touches the held-in-place flag. -/
theorem update_fst_held (s : core_drag_t) (layout : point_t → Option Nat) (g : point_t) :
    (s.update_current_output layout g).1.view_held_in_place = s.view_held_in_place := by
  by_cases h : layout g = s.current_output <;>
    simp [core_drag_t.update_current_output, h]

/-- `update_current_output` never touches the grab origin. -/
theorem update_fst_grab_origin (s : core_drag_t) (layout : point_t → Option Nat) (g : point_t) :
    (s.update_current_output layout g).1.grab_origin = s.grab_origin := by
  by_cases h : layout g = s.current_output <;>
    simp [core_drag_t.update_current_output, h]

/-- `update_current_output` never touches the drag parameters. -/
theorem update_fst_params (s : core_drag_t) (layout : point_t → Option Nat) (g : point_t) :
    (s.update_current_output layout g).1.params = s.params := by
  by_cases h : layout g = s.current_output <;>
    simp [core_drag_t.update_current_output, h]

/-- `update_current_output` never touches the dragged view. -/
theorem update_fst_view (s : core_drag_t) (layout : point_t → Option Nat) (g : point_t) :
    (s.update_current_output layout g).1.view = s.view := by
  by_cases h : layout g = s.current_output <;>
    simp [core_drag_t.update_current_output, h]

/-- `update_current_output` never emits a snap-off notification. -/
theorem update_snd_no_snap (s : core_drag_t) (layout : point_t → Option Nat) (g : point_t) :
    (s.update_current_output layout g).2.filter signal_t.is_snap_off = [] := by
  by_cases h : layout g = s.current_output <;>
    simp [core_drag_t.update_current_output, h, signal_t.is_snap_off]

/-- `update_current_output` emits at most one notification. -/
theorem update_snd_len (s : core_drag_t) (layout : point_t → Option Nat) (g : point_t) :
    (s.update_current_output layout g).2.length ≤ 1 := by
  by_cases h : layout g = s.current_output <;>
    simp [core_drag_t.update_current_output, h]

/-- When the projection differs from the current focus, exactly one focus-change is emitted. -/
theorem update_snd_of_ne (s : core_drag_t) (layout : point_t → Option Nat) (g : point_t)
    (h : layout g ≠ s.current_output) :
    (s.update_current_output layout g).2 =
      [signal_t.focus_output s.current_output (layout g)] := by
  simp [core_drag_t.update_current_output, h]

/--
Closed form of `handle_motion` while held in place below the threshold: the
snap-off block and the grab-position update are both skipped.
-/
theorem handle_motion_below (s : core_drag_t) (layout : point_t → Option Nat) (p : point_t)
    (hheld : s.view_held_in_place = true) (hlt : s.dst_sq p < s.thresh_sq) :
    s.handle_motion layout p = s.update_current_output layout p := by
  simp [core_drag_t.handle_motion, hheld, not_le.mpr hlt]

/--
Closed form of `handle_motion` when held in place and the squared displacement
reaches the squared threshold: the held flag is cleared, one snap-off
notification is emitted, and the grab position is updated.
-/
theorem handle_motion_fire (s : core_drag_t) (layout : point_t → Option Nat) (p : point_t)
    (hheld : s.view_held_in_place = true) (hge : s.thresh_sq ≤ s.dst_sq p) :
    s.handle_motion layout p =
      (({ s with
            view_held_in_place := false
            transformer := { s.transformer with grab_position := p } }.update_current_output
          layout p).1,
        signal_t.snap_off s.current_output ::
          ({ s with
              view_held_in_place := false
              transformer := { s.transformer with grab_position := p } }.update_current_output
            layout p).2) := by
  simp [core_drag_t.handle_motion, hheld, hge]

/-- Closed form of `handle_motion` when not held in place. -/
theorem handle_motion_free (s : core_drag_t) (layout : point_t → Option Nat) (p : point_t)
    (hheld : s.view_held_in_place = false) :
    s.handle_motion layout p =
      { s with transformer :=
          { s.transformer with grab_position := p } }.update_current_output layout p := by
  simp [core_drag_t.handle_motion, hheld]

/-- After any `handle_motion`, the focused output equals the projection of the point. -/
theorem motion_fst_current (s : core_drag_t) (layout : point_t → Option Nat) (p : point_t) :
    (s.handle_motion layout p).1.current_output = layout p := by
  cases hheld : s.view_held_in_place
  · simp [handle_motion_free s layout p hheld, update_fst_current]
  · by_cases hge : s.thresh_sq ≤ s.dst_sq p
    · simp [handle_motion_fire s layout p hheld hge, update_fst_current]
    · simp [handle_motion_below s layout p hheld (lt_of_not_le hge), update_fst_current]

/-- `handle_motion` never changes the grab origin. -/
theorem motion_fst_grab_origin (s : core_drag_t) (layout : point_t → Option Nat) (p : point_t) :
    (s.handle_motion layout p).1.grab_origin = s.grab_origin := by
  cases hheld : s.view_held_in_place
  · simp [handle_motion_free s layout p hheld, update_fst_grab_origin]
  · by_cases hge : s.thresh_sq ≤ s.dst_sq p
    · simp [handle_motion_fire s layout p hheld hge, update_fst_grab_origin]
    · simp [handle_motion_below s layout p hheld (lt_of_not_le hge), update_fst_grab_origin]

/-- `handle_motion` never changes the drag parameters. -/
theorem motion_fst_params (s : core_drag_t) (layout : point_t → Option Nat) (p : point_t) :
    (s.handle_motion layout p).1.params = s.params := by
  cases hheld : s.view_held_in_place
  · simp [handle_motion_free s layout p hheld, update_fst_params]
  · by_cases hge : s.thresh_sq ≤ s.dst_sq p
    · simp [handle_motion_fire s layout p hheld hge, update_fst_params]
    · simp [handle_motion_below s layout p hheld (lt_of_not_le hge), update_fst_params]

/-- `handle_motion` never changes the dragged view. -/
theorem motion_fst_view (s : core_drag_t) (layout : point_t → Option Nat) (p : point_t) :
    (s.handle_motion layout p).1.view = s.view := by
  cases hheld : s.view_held_in_place
  · simp [handle_motion_free s layout p hheld, update_fst_view]
  · by_cases hge : s.thresh_sq ≤ s.dst_sq p
    · simp [handle_motion_fire s layout p hheld hge, update_fst_view]
    · simp [handle_motion_below s layout p hheld (lt_of_not_le hge), update_fst_view]

/-- `handle_motion` never changes the transformer's relative grab fraction. -/
theorem motion_fst_relative (s : core_drag_t) (layout : point_t → Option Nat) (p : point_t) :
    (s.handle_motion layout p).1.transformer.relative_grab = s.transformer.relative_grab := by
  cases hheld : s.view_held_in_place
  · simp [handle_motion_free s layout p hheld, update_fst_transformer]
  · by_cases hge : s.thresh_sq ≤ s.dst_sq p
    · simp [handle_motion_fire s layout p hheld hge, update_fst_transformer]
    · simp [handle_motion_below s layout p hheld (lt_of_not_le hge), update_fst_transformer]

/-- If the held flag survives `handle_motion`, the call was held, below threshold. -/
theorem motion_held_inv (s : core_drag_t) (layout : point_t → Option Nat) (p : point_t)
    (h : (s.handle_motion layout p).1.view_held_in_place = true) :
    s.view_held_in_place = true ∧ s.dst_sq p < s.thresh_sq := by
  cases hheld : s.view_held_in_place
  · rw [handle_motion_free s layout p hheld] at h
    rw [update_fst_held] at h
    simp [hheld] at h
  · by_cases hge : s.thresh_sq ≤ s.dst_sq p
    · rw [handle_motion_fire s layout p hheld hge] at h
      simp [update_fst_held] at h
    · exact ⟨rfl, lt_of_not_le hge⟩

/-- The notifications of `update_current_output`, as a function of the projection. -/
theorem update_snd_focus (s : core_drag_t) (layout : point_t → Option Nat) (g : point_t) :
    (s.update_current_output layout g).2 =
      (if layout g = s.current_output then []
       else [signal_t.focus_output s.current_output (layout g)]) := by
  by_cases h : layout g = s.current_output <;>
    simp [core_drag_t.update_current_output, h]

/-- The focus-change notifications emitted by one `handle_motion` call. -/
theorem motion_snd_focus (s : core_drag_t) (layout : point_t → Option Nat) (p : point_t) :
    (s.handle_motion layout p).2.filter signal_t.is_focus_change =
      (if layout p = s.current_output then []
       else [signal_t.focus_output s.current_output (layout p)]) := by
  cases hheld : s.view_held_in_place
  · by_cases hc : layout p = s.current_output <;>
      simp [handle_motion_free s layout p hheld, update_snd_focus, hc,
        signal_t.is_focus_change]
  · by_cases hge : s.thresh_sq ≤ s.dst_sq p
    · by_cases hc : layout p = s.current_output <;>
        simp [handle_motion_fire s layout p hheld hge, update_snd_focus, hc,
          signal_t.is_focus_change]
    · by_cases hc : layout p = s.current_output <;>
        simp [handle_motion_below s layout p hheld (lt_of_not_le hge), update_snd_focus, hc,
          signal_t.is_focus_change]

/-- The snap-off notifications emitted by one `handle_motion` call. -/
theorem motion_snd_snap (s : core_drag_t) (layout : point_t → Option Nat) (p : point_t) :
    (s.handle_motion layout p).2.filter signal_t.is_snap_off =
      (if s.view_held_in_place = true ∧ s.thresh_sq ≤ s.dst_sq p then
        [signal_t.snap_off s.current_output]
       else []) := by
  cases hheld : s.view_held_in_place
  · simp [handle_motion_free s layout p hheld, update_snd_no_snap, hheld]
  · by_cases hge : s.thresh_sq ≤ s.dst_sq p
    · simp [handle_motion_fire s layout p hheld hge, update_snd_no_snap, hheld, hge,
        signal_t.is_snap_off]
    · simp [handle_motion_below s layout p hheld (lt_of_not_le hge), update_snd_no_snap,
        hheld, hge]

/-- `snap_off_count` is additive over list append. -/
theorem snap_off_count_append (a b : List signal_t) :
    snap_off_count (a ++ b) = snap_off_count a + snap_off_count b := by
  simp [snap_off_count, List.filter_append]

/-- `focus_change_count` is additive over list append. -/
theorem focus_change_count_append (a b : List signal_t) :
    focus_change_count (a ++ b) = focus_change_count a + focus_change_count b := by
  simp [focus_change_count, List.filter_append]

/-- One `handle_motion` call emits at most one snap-off notification. -/
theorem motion_snap_le_one (s : core_drag_t) (layout : point_t → Option Nat) (p : point_t) :
    snap_off_count (s.handle_motion layout p).2 ≤ 1 := by
  unfold snap_off_count
  rw [motion_snd_snap]
  split <;> simp

/-- One `handle_motion` call emits at most one focus-change notification. -/
theorem motion_focus_le_one (s : core_drag_t) (layout : point_t → Option Nat) (p : point_t) :
    focus_change_count (s.handle_motion layout p).2 ≤ 1 := by
  unfold focus_change_count
  rw [motion_snd_focus]
  split <;> simp

/--
Claim C2, counterexample: with output 0 focused and a motion point that the
output-layout projection maps to no output, `handle_motion` does NOT leave the
focused output unchanged: it clears `current_output` to null and emits a
focus-change notification (previous = output 0, new = null), because
`update_current_output` treats a null projection like any other changed value.
-/
theorem C2_counterexample :
    (focused_drag_state.handle_motion no_output_layout ⟨5, 5⟩).1.current_output = none ∧
      (focused_drag_state.handle_motion no_output_layout ⟨5, 5⟩).2 =
        [signal_t.focus_output (some 0) none] := by
  constructor <;>
    simp [focused_drag_state, core_drag_t.handle_motion, core_drag_t.update_current_output,
      no_output_layout]

/--
Claim C2, amended: when the output-layout projection matches no output,
`handle_motion` treats the null result like any other focus value.  If no
output was focused the focus is left unchanged and no focus-change notification
is emitted; but if an output was focused, the focus IS cleared to null and a
focus-change notification carrying (previous output, null) is emitted.  (The
spec's "focus is left unchanged rather than cleared" holds only in the
already-null case.)
-/
theorem C2_no_output_focus (s : core_drag_t) (layout : point_t → Option Nat) (p : point_t)
    (hmiss : layout p = none) :
    (s.current_output = none →
        (s.handle_motion layout p).1.current_output = s.current_output ∧
          (s.handle_motion layout p).2.filter signal_t.is_focus_change = []) ∧
      (∀ o : Nat, s.current_output = some o →
        (s.handle_motion layout p).1.current_output = none ∧
          (s.handle_motion layout p).2.filter signal_t.is_focus_change =
            [signal_t.focus_output (some o) none]) := by
  constructor
  · intro hcur
    constructor
    · rw [motion_fst_current, hmiss, hcur]
    · rw [motion_snd_focus]
      simp [hmiss, hcur]
  · intro o hcur
    constructor
    · rw [motion_fst_current, hmiss]
    · rw [motion_snd_focus]
      simp [hmiss, hcur]

/-- Witness for `C2_no_output_focus` on `focused_drag_state` and `no_output_layout`. -/
theorem C2_no_output_focus_witness :
    no_output_layout ⟨5, 5⟩ = none ∧
      ((focused_drag_state.current_output = none →
          (focused_drag_state.handle_motion no_output_layout ⟨5, 5⟩).1.current_output =
              focused_drag_state.current_output ∧
            (focused_drag_state.handle_motion no_output_layout
                ⟨5, 5⟩).2.filter signal_t.is_focus_change = []) ∧
        (∀ o : Nat, focused_drag_state.current_output = some o →
          (focused_drag_state.handle_motion no_output_layout ⟨5, 5⟩).1.current_output = none ∧
            (focused_drag_state.handle_motion no_output_layout
                ⟨5, 5⟩).2.filter signal_t.is_focus_change =
              [signal_t.focus_output (some o) none])) :=
  ⟨rfl, C2_no_output_focus focused_drag_state no_output_layout ⟨5, 5⟩ rfl⟩

/--
Claim C4 (confirmed): while a session is held in place and the squared
displacement stays below the squared threshold, `handle_motion` leaves the
transform's `grab_position` unchanged, keeps the held flag and emits no
snap-off; the call that reaches the threshold clears the held flag, emits
exactly one snap-off and already sets `grab_position` to the motion point; and
every call in the non-held state sets `grab_position` to the motion point
without emitting snap-off.
-/
theorem C4_anchor (s : core_drag_t) (layout : point_t → Option Nat) (p : point_t) :
    (s.view_held_in_place = true → s.dst_sq p < s.thresh_sq →
        (s.handle_motion layout p).1.transformer.grab_position =
            s.transformer.grab_position ∧
          (s.handle_motion layout p).1.view_held_in_place = true ∧
          snap_off_count (s.handle_motion layout p).2 = 0) ∧
      (s.view_held_in_place = true → s.thresh_sq ≤ s.dst_sq p →
        (s.handle_motion layout p).1.transformer.grab_position = p ∧
          (s.handle_motion layout p).1.view_held_in_place = false ∧
          snap_off_count (s.handle_motion layout p).2 = 1) ∧
      (s.view_held_in_place = false →
        (s.handle_motion layout p).1.transformer.grab_position = p ∧
          (s.handle_motion layout p).1.view_held_in_place = false ∧
          snap_off_count (s.handle_motion layout p).2 = 0) := by
  refine ⟨fun hheld hlt => ⟨?_, ?_, ?_⟩, fun hheld hge => ⟨?_, ?_, ?_⟩,
    fun hheld => ⟨?_, ?_, ?_⟩⟩
  · simp [handle_motion_below s layout p hheld hlt, update_fst_transformer]
  · simp [handle_motion_below s layout p hheld hlt, update_fst_held, hheld]
  · simp [snap_off_count, motion_snd_snap, not_le.mpr hlt]
  · simp [handle_motion_fire s layout p hheld hge, update_fst_transformer]
  · simp [handle_motion_fire s layout p hheld hge, update_fst_held]
  · simp [snap_off_count, motion_snd_snap, hheld, hge]
  · simp [handle_motion_free s layout p hheld, update_fst_transformer]
  · simp [handle_motion_free s layout p hheld, update_fst_held, hheld]
  · simp [snap_off_count, motion_snd_snap, hheld]

/--
Witness for `C4_anchor`, following the spec's end-to-end scenario 2: with
threshold 10 and grab origin (0, 0), motion (5, 0) leaves the anchor at the
grab origin, keeps the session held and emits no snap-off; the subsequent
motion (12, 0) emits exactly one snap-off and moves the anchor to (12, 0).
-/
theorem C4_anchor_witness :
    (held_drag_state.view_held_in_place = true ∧
      held_drag_state.dst_sq ⟨5, 0⟩ < held_drag_state.thresh_sq ∧
      ((held_drag_state.handle_motion single_output_layout
            ⟨5, 0⟩).1.transformer.grab_position =
          held_drag_state.transformer.grab_position ∧
        (held_drag_state.handle_motion single_output_layout ⟨5, 0⟩).1.view_held_in_place =
          true ∧
        snap_off_count (held_drag_state.handle_motion single_output_layout ⟨5, 0⟩).2 = 0)) ∧
      ((held_drag_state.handle_motion single_output_layout ⟨5, 0⟩).1.view_held_in_place =
          true ∧
        (held_drag_state.handle_motion single_output_layout ⟨5, 0⟩).1.thresh_sq ≤
          (held_drag_state.handle_motion single_output_layout ⟨5, 0⟩).1.dst_sq ⟨12, 0⟩ ∧
        (((held_drag_state.handle_motion single_output_layout ⟨5, 0⟩).1.handle_motion
              single_output_layout ⟨12, 0⟩).1.transformer.grab_position = (⟨12, 0⟩ : point_t) ∧
          ((held_drag_state.handle_motion single_output_layout ⟨5, 0⟩).1.handle_motion
              single_output_layout ⟨12, 0⟩).1.view_held_in_place = false ∧
          snap_off_count
              ((held_drag_state.handle_motion single_output_layout ⟨5, 0⟩).1.handle_motion
                single_output_layout ⟨12, 0⟩).2 = 1)) :=
  ⟨⟨rfl, by decide,
      (C4_anchor held_drag_state single_output_layout ⟨5, 0⟩).1 rfl (by decide)⟩,
    ⟨by decide, by decide,
      (C4_anchor (held_drag_state.handle_motion single_output_layout ⟨5, 0⟩).1
          single_output_layout ⟨12, 0⟩).2.1 (by decide) (by decide)⟩⟩

/--
Claim C5 (confirmed): with snap-off pending and integer threshold `T > 0`, a
motion whose squared displacement from the grab origin is exactly `T²`
(Euclidean distance `T`) triggers snap-off, while squared displacement
`(T − 1)²` (distance `T − 1`) does not, because the comparison is
`dst_sq >= thresh_sq` on integers.
-/
theorem C5_threshold (s : core_drag_t) (layout : point_t → Option Nat) (T : Int)
    (p q : point_t) (hheld : s.view_held_in_place = true)
    (hT : s.params.snap_off_threshold = T) (hTpos : 0 < T)
    (hp : s.dst_sq p = T * T) (hq : s.dst_sq q = (T - 1) * (T - 1)) :
    snap_off_count (s.handle_motion layout p).2 = 1 ∧
      snap_off_count (s.handle_motion layout q).2 = 0 := by
  have hthresh : s.thresh_sq = T * T := by
    unfold core_drag_t.thresh_sq
    rw [hT]
  constructor
  · simp [snap_off_count, motion_snd_snap, hheld, hthresh, hp]
  · have hlt : s.dst_sq q < s.thresh_sq := by
      rw [hq, hthresh]
      nlinarith
    simp [snap_off_count, motion_snd_snap, not_le.mpr hlt]

/--
Witness for `C5_threshold` with threshold 10: the point (6, 8) at Euclidean
distance exactly 10 fires snap-off; the point (9, 0) at distance 9 does not.
-/
theorem C5_threshold_witness :
    (held_drag_state.view_held_in_place = true ∧
      held_drag_state.params.snap_off_threshold = 10 ∧
      (0 : Int) < 10 ∧
      held_drag_state.dst_sq ⟨6, 8⟩ = 10 * 10 ∧
      held_drag_state.dst_sq ⟨9, 0⟩ = (10 - 1) * (10 - 1)) ∧
      (snap_off_count (held_drag_state.handle_motion single_output_layout ⟨6, 8⟩).2 = 1 ∧
        snap_off_count (held_drag_state.handle_motion single_output_layout ⟨9, 0⟩).2 = 0) :=
  ⟨⟨rfl, rfl, by decide, by decide, by decide⟩,
    C5_threshold held_drag_state single_output_layout 10 ⟨6, 8⟩ ⟨9, 0⟩ rfl rfl (by decide)
      (by decide) (by decide)⟩

/-- When not held in place, `handle_motion` moves the anchor to the motion point. -/
theorem motion_grab_free (s : core_drag_t) (layout : point_t → Option Nat) (p : point_t)
    (h : s.view_held_in_place = false) :
    (s.handle_motion layout p).1.transformer.grab_position = p := by
  simp [handle_motion_free s layout p h, update_fst_transformer]

/-- The world-level `handle_motion` only touches the drag state, not the views. -/
theorem world_motion_views (w : world_t) (layout : point_t → Option Nat) (p : point_t) :
    (w.handle_motion layout p).1.views = w.views := rfl

/-- The world-level `handle_motion` acts as the core `handle_motion` on the drag state. -/
theorem world_motion_drag (w : world_t) (layout : point_t → Option Nat) (p : point_t) :
    (w.handle_motion layout p).1.drag = (w.drag.handle_motion layout p).1 := rfl

/-- The world-level `handle_motion` emits what the core `handle_motion` emits. -/
theorem world_motion_snd (w : world_t) (layout : point_t → Option Nat) (p : point_t) :
    (w.handle_motion layout p).2 = (w.drag.handle_motion layout p).2 := rfl

/-- The session fields set by `start_drag`. -/
theorem start_drag_drag (w : world_t) (V : Nat) (g : point_t) (rel : pointf_t)
    (opts : drag_options_t) :
    (w.start_drag V g rel opts).drag.view = some V ∧
      (w.start_drag V g rel opts).drag.transformer =
        { scale_factor := opts.initial_scale, relative_grab := rel, grab_position := g } ∧
      (w.start_drag V g rel opts).drag.params = opts ∧
      (w.start_drag V g rel opts).drag.view_held_in_place =
        (if opts.enable_snap_off then true else w.drag.view_held_in_place) :=
  ⟨rfl, rfl, rfl, rfl⟩

/-- `start_drag` hides the dragged view and pushes the drag transformer onto it. -/
theorem start_drag_views (w : world_t) (V : Nat) (g : point_t) (rel : pointf_t)
    (opts : drag_options_t) :
    (w.start_drag V g rel opts).views V =
      { w.views V with
        visible := false
        transformers := move_drag_transformer :: (w.views V).transformers } := by
  simp [world_t.start_drag]

/-- The three-argument `start_drag` overload derives the relative grab from the bbox. -/
theorem start_drag_auto_eq (w : world_t) (V : Nat) (g : point_t) (opts : drag_options_t) :
    w.start_drag_auto V g opts =
      w.start_drag V g
        (find_relative_grab
          { x := (w.views V).bbox.x + (w.views V).output_origin.x
            y := (w.views V).bbox.y + (w.views V).output_origin.y
            width := (w.views V).bbox.width
            height := (w.views V).bbox.height } g) opts := rfl

/-- What `handle_input_released` does to a session whose view is `V`. -/
theorem release_spec (w : world_t) (V : Nat) (hv : w.drag.view = some V) :
    (w.handle_input_released).2 =
      [signal_t.done w.drag.current_output (some V) w.drag.transformer.relative_grab
        w.drag.transformer.grab_position] ∧
      ((w.handle_input_released).1.views V).visible = true ∧
      ((w.handle_input_released).1.views V).transformers =
        (w.views V).transformers.erase move_drag_transformer ∧
      (w.handle_input_released).1.drag.view = none := by
  unfold world_t.handle_input_released
  rw [hv]
  simp

/--
After `start_drag` (snap-off disabled, session not held), one motion and one
release: the done record carries the motion point as grab position, the
relative grab chosen at start, the view and the focused output; the view is
visible again with the drag transformer popped, and the session is reset.
-/
theorem release_after_motion (w : world_t) (V : Nat) (g p : point_t) (rel : pointf_t)
    (opts : drag_options_t) (layout : point_t → Option Nat)
    (hsnap : opts.enable_snap_off = false)
    (hheld : w.drag.view_held_in_place = false)
    (htr : move_drag_transformer ∉ (w.views V).transformers) :
    (((w.start_drag V g rel opts).handle_motion layout p).1.handle_input_released).2 =
      [signal_t.done (layout p) (some V) rel p] ∧
      (((((w.start_drag V g rel opts).handle_motion layout
          p).1.handle_input_released).1.views V).visible = true) ∧
      move_drag_transformer ∉
        (((((w.start_drag V g rel opts).handle_motion layout
          p).1.handle_input_released).1.views V).transformers) ∧
      ((((w.start_drag V g rel opts).handle_motion layout
          p).1.handle_input_released).1.drag.view = none) := by
  have h1 : (w.start_drag V g rel opts).drag.view_held_in_place = false := by
    rw [(start_drag_drag w V g rel opts).2.2.2, hsnap]
    simpa using hheld
  have hv2 : ((w.start_drag V g rel opts).handle_motion layout p).1.drag.view = some V := by
    rw [world_motion_drag, motion_fst_view, (start_drag_drag w V g rel opts).1]
  have hrel2 : ((w.start_drag V g rel opts).handle_motion layout
      p).1.drag.transformer.relative_grab = rel := by
    rw [world_motion_drag, motion_fst_relative, (start_drag_drag w V g rel opts).2.1]
  have hgrab2 : ((w.start_drag V g rel opts).handle_motion layout
      p).1.drag.transformer.grab_position = p := by
    rw [world_motion_drag, motion_grab_free _ layout p h1]
  have hcur2 : ((w.start_drag V g rel opts).handle_motion layout
      p).1.drag.current_output = layout p := by
    rw [world_motion_drag, motion_fst_current]
  obtain ⟨e1, e2, e3, e4⟩ :=
    release_spec ((w.start_drag V g rel opts).handle_motion layout p).1 V hv2
  refine ⟨?_, e2, ?_, e4⟩
  · rw [e1, hcur2, hrel2, hgrab2]
  · rw [e3, world_motion_views, start_drag_views]
    simpa using htr

/--
Claim C8 (confirmed): the sequence `start_drag(V, (100,100),
{enable_snap_off=false})` → `handle_motion((150,120))` →
`handle_input_released()` emits a single drag-done notification whose record
has `grab_position = (150, 120)`, the session's relative grab (derived from the
view's bounding box at start), the view `V` and the focused output; the view's
visibility is restored to `true` and the move-drag transformer is removed from
the view, with the session reset to idle.
-/
theorem C8_release_scenario (w : world_t) (V : Nat) (layout : point_t → Option Nat)
    (hheld : w.drag.view_held_in_place = false)
    (htr : move_drag_transformer ∉ (w.views V).transformers) :
    (((w.start_drag_auto V ⟨100, 100⟩ { enable_snap_off := false }).handle_motion layout
        ⟨150, 120⟩).1.handle_input_released).2 =
      [signal_t.done (layout ⟨150, 120⟩) (some V)
        (find_relative_grab
          { x := (w.views V).bbox.x + (w.views V).output_origin.x
            y := (w.views V).bbox.y + (w.views V).output_origin.y
            width := (w.views V).bbox.width
            height := (w.views V).bbox.height } ⟨100, 100⟩)
        ⟨150, 120⟩] ∧
      (((((w.start_drag_auto V ⟨100, 100⟩
          { enable_snap_off := false }).handle_motion layout
          ⟨150, 120⟩).1.handle_input_released).1.views V).visible = true) ∧
      move_drag_transformer ∉
        (((((w.start_drag_auto V ⟨100, 100⟩
          { enable_snap_off := false }).handle_motion layout
          ⟨150, 120⟩).1.handle_input_released).1.views V).transformers) ∧
      ((((w.start_drag_auto V ⟨100, 100⟩
          { enable_snap_off := false }).handle_motion layout
          ⟨150, 120⟩).1.handle_input_released).1.drag.view = none) := by
  rw [start_drag_auto_eq]
  exact release_after_motion w V ⟨100, 100⟩ ⟨150, 120⟩ _ _ layout rfl hheld htr

/--
Witness for `C8_release_scenario` on `sample_world` (view 0 is 200×200 at the
origin of output 0, so the derived relative grab of (100, 100) is the center).
-/
theorem C8_release_scenario_witness :
    (sample_world.drag.view_held_in_place = false ∧
      move_drag_transformer ∉ (sample_world.views 0).transformers) ∧
      ((((sample_world.start_drag_auto 0 ⟨100, 100⟩
            { enable_snap_off := false }).handle_motion single_output_layout
          ⟨150, 120⟩).1.handle_input_released).2 =
        [signal_t.done (single_output_layout ⟨150, 120⟩) (some 0)
          (find_relative_grab
            { x := (sample_world.views 0).bbox.x + (sample_world.views 0).output_origin.x
              y := (sample_world.views 0).bbox.y + (sample_world.views 0).output_origin.y
              width := (sample_world.views 0).bbox.width
              height := (sample_world.views 0).bbox.height } ⟨100, 100⟩)
          ⟨150, 120⟩] ∧
        (((((sample_world.start_drag_auto 0 ⟨100, 100⟩
            { enable_snap_off := false }).handle_motion single_output_layout
            ⟨150, 120⟩).1.handle_input_released).1.views 0).visible = true) ∧
        move_drag_transformer ∉
          (((((sample_world.start_drag_auto 0 ⟨100, 100⟩
            { enable_snap_off := false }).handle_motion single_output_layout
            ⟨150, 120⟩).1.handle_input_released).1.views 0).transformers) ∧
        ((((sample_world.start_drag_auto 0 ⟨100, 100⟩
            { enable_snap_off := false }).handle_motion single_output_layout
            ⟨150, 120⟩).1.handle_input_released).1.drag.view = none)) :=
  ⟨⟨rfl, by simp [sample_world, sample_view]⟩,
    C8_release_scenario sample_world 0 single_output_layout rfl
      (by simp [sample_world, sample_view])⟩

/--
Claim C9 (confirmed): delivering the view-unmap notification is, by
construction, exactly a call to `handle_input_released`: it emits the same
single drag-done notification (same payload shape, built from the session's
focused output, view, relative grab and grab position) and resets the session
to idle — view and focused output null, held-in-place flag false.
-/
theorem C9_unmap_equals_release (w : world_t) :
    w.on_view_unmap = w.handle_input_released ∧
      (w.on_view_unmap).2 =
        [signal_t.done w.drag.current_output w.drag.view w.drag.transformer.relative_grab
          w.drag.transformer.grab_position] ∧
      (w.on_view_unmap).1.drag.view = none ∧
      (w.on_view_unmap).1.drag.current_output = none ∧
      (w.on_view_unmap).1.drag.view_held_in_place = false :=
  ⟨rfl, rfl, rfl, rfl, rfl⟩

/--
Claim C6 (confirmed): once the held-in-place flag is cleared (snap-off has
fired, or was never enabled), no sequence of further `handle_motion` calls —
including ones returning to the grab origin — re-enters the held state or
emits another snap-off notification.
-/
theorem C6_snap_off_monotone (s : core_drag_t) (layout : point_t → Option Nat)
    (ps : List point_t) (h : s.view_held_in_place = false) :
    (s.handle_motions layout ps).1.view_held_in_place = false ∧
      snap_off_count (s.handle_motions layout ps).2 = 0 := by
  induction ps generalizing s with
  | nil =>
    simp [core_drag_t.handle_motions, snap_off_count, h]
  | cons p ps ih =>
    have hstep_held : (s.handle_motion layout p).1.view_held_in_place = false := by
      cases hh : (s.handle_motion layout p).1.view_held_in_place
      · rfl
      · have := (motion_held_inv s layout p hh).1
        rw [h] at this
        exact absurd this (by simp)
    have hstep_snap : snap_off_count (s.handle_motion layout p).2 = 0 := by
      simp [snap_off_count, motion_snd_snap, h]
    have hrest := ih (s.handle_motion layout p).1 hstep_held
    constructor
    · simpa [core_drag_t.handle_motions] using hrest.1
    · simp [core_drag_t.handle_motions, snap_off_count_append, hstep_snap, hrest.2]

/--
Witness for `C6_snap_off_monotone`: a non-held session stays non-held and emits
no snap-off over the motion sequence (0, 0), (5, 5) — the first point being the
grab origin itself.
-/
theorem C6_snap_off_monotone_witness :
    focused_drag_state.view_held_in_place = false ∧
      ((focused_drag_state.handle_motions single_output_layout
            [⟨0, 0⟩, ⟨5, 5⟩]).1.view_held_in_place = false ∧
        snap_off_count
            (focused_drag_state.handle_motions single_output_layout
              [⟨0, 0⟩, ⟨5, 5⟩]).2 = 0) :=
  ⟨rfl, C6_snap_off_monotone focused_drag_state single_output_layout [⟨0, 0⟩, ⟨5, 5⟩] rfl⟩

/--
Claim C7 (confirmed): calling `handle_motion` twice in succession with the same
point emits at most one focus-change and at most one snap-off notification in
total; the second call emits nothing at all (its projection result already
equals the focused output, and its displacement test cannot newly pass).
-/
theorem C7_motion_idempotent (s : core_drag_t) (layout : point_t → Option Nat)
    (p : point_t) :
    ((s.handle_motion layout p).1.handle_motion layout p).2 = [] ∧
      snap_off_count
          ((s.handle_motion layout p).2 ++
            ((s.handle_motion layout p).1.handle_motion layout p).2) ≤ 1 ∧
      focus_change_count
          ((s.handle_motion layout p).2 ++
            ((s.handle_motion layout p).1.handle_motion layout p).2) ≤ 1 := by
  have hcur : (s.handle_motion layout p).1.current_output = layout p :=
    motion_fst_current s layout p
  have hsecond : ((s.handle_motion layout p).1.handle_motion layout p).2 = [] := by
    cases hh : (s.handle_motion layout p).1.view_held_in_place
    · rw [handle_motion_free (s.handle_motion layout p).1 layout p hh, update_snd_focus]
      simp [hcur]
    · obtain ⟨hheld0, hlt0⟩ := motion_held_inv s layout p hh
      have hlt1 : (s.handle_motion layout p).1.dst_sq p <
          (s.handle_motion layout p).1.thresh_sq := by
        rw [dst_sq_congr (s.handle_motion layout p).1 s p (motion_fst_grab_origin s layout p),
          thresh_sq_congr (s.handle_motion layout p).1 s (motion_fst_params s layout p)]
        exact hlt0
      rw [handle_motion_below (s.handle_motion layout p).1 layout p hh hlt1, update_snd_focus]
      simp [hcur]
  refine ⟨hsecond, ?_, ?_⟩
  · rw [hsecond]
    simpa using motion_snap_le_one s layout p
  · rw [hsecond]
    simpa using motion_focus_le_one s layout p

/--
Claim C10 (confirmed): starting a drag with `enable_snap_off = true` and the
default `snap_off_threshold = 0` makes the very first `handle_motion` call of
the session fire snap-off immediately — even at the grab origin itself, since
the squared displacement 0 satisfies `0 >= 0` — so the held-in-place state
survives zero motion events.
-/
theorem C10_zero_threshold (w : world_t) (V : Nat) (g : point_t) (rel : pointf_t)
    (layout : point_t → Option Nat) (p : point_t) :
    ({ enable_snap_off := true } : drag_options_t).snap_off_threshold = 0 ∧
      (w.start_drag V g rel { enable_snap_off := true }).drag.view_held_in_place = true ∧
      snap_off_count
          ((w.start_drag V g rel
            { enable_snap_off := true }).drag.handle_motion layout p).2 = 1 ∧
      ((w.start_drag V g rel
          { enable_snap_off := true }).drag.handle_motion layout p).1.view_held_in_place =
        false := by
  have hheld :
      (w.start_drag V g rel { enable_snap_off := true }).drag.view_held_in_place = true := by
    simp [world_t.start_drag]
  have hge :
      (w.start_drag V g rel { enable_snap_off := true }).drag.thresh_sq ≤
        (w.start_drag V g rel { enable_snap_off := true }).drag.dst_sq p := by
    have hthresh :
        (w.start_drag V g rel { enable_snap_off := true }).drag.thresh_sq = 0 := by
      simp [world_t.start_drag, core_drag_t.thresh_sq]
    rw [hthresh]
    unfold core_drag_t.dst_sq
    nlinarith [mul_self_nonneg
        (p.x - (w.start_drag V g rel { enable_snap_off := true }).drag.grab_origin.x),
      mul_self_nonneg
        (p.y - (w.start_drag V g rel { enable_snap_off := true }).drag.grab_origin.y)]
  refine ⟨rfl, hheld, ?_, ?_⟩
  · simp [snap_off_count, motion_snd_snap, hheld, hge]
  · simp [handle_motion_fire _ layout p hheld hge, update_fst_held]

/--
Claim C3 (confirmed): for every view geometry and positive scale factor, the
transform's `get_bounding_box` returns a rectangle whose width and height are
the view's width and height divided by the scale factor (floor-truncated), and
whose origin is placed by the geometry-around rule anchored at `grab_position`
with fraction `relative_grab`: `origin = grab_position - ⌊relative_grab * size⌋`
componentwise, i.e. the rectangle is exactly
`find_geometry_around (floored size) grab_position relative_grab`.
-/
theorem C3_bounding_box (tr : scale_around_grab_t) (view region : geometry_t)
    (_hs : 0 < tr.scale_factor) :
    (tr.get_bounding_box view region).width = ⌊(view.width : ℚ) / tr.scale_factor⌋ ∧
      (tr.get_bounding_box view region).height = ⌊(view.height : ℚ) / tr.scale_factor⌋ ∧
      (tr.get_bounding_box view region).x =
        tr.grab_position.x -
          ⌊tr.relative_grab.x * ((⌊(view.width : ℚ) / tr.scale_factor⌋ : Int) : ℚ)⌋ ∧
      (tr.get_bounding_box view region).y =
        tr.grab_position.y -
          ⌊tr.relative_grab.y * ((⌊(view.height : ℚ) / tr.scale_factor⌋ : Int) : ℚ)⌋ ∧
      tr.get_bounding_box view region =
        find_geometry_around
          ⟨⌊(view.width : ℚ) / tr.scale_factor⌋, ⌊(view.height : ℚ) / tr.scale_factor⌋⟩
          tr.grab_position tr.relative_grab := by
  refine ⟨?_, ?_, ?_, ?_, rfl⟩ <;>
    simp [scale_around_grab_t.get_bounding_box, find_geometry_around]

/--
Witness for `C3_bounding_box`: scale factor 2 halves a 200×100 view to 100×50,
anchored so that grab (100, 100) sits at its center fraction (1/2, 1/2).
-/
theorem C3_bounding_box_witness :
    (0 : ℚ) < 2 ∧
      (((⟨2, ⟨1/2, 1/2⟩, ⟨100, 100⟩⟩ : scale_around_grab_t).get_bounding_box
            ⟨0, 0, 200, 100⟩ ⟨0, 0, 200, 100⟩).width = ⌊((200 : Int) : ℚ) / (2 : ℚ)⌋ ∧
        ((⟨2, ⟨1/2, 1/2⟩, ⟨100, 100⟩⟩ : scale_around_grab_t).get_bounding_box
            ⟨0, 0, 200, 100⟩ ⟨0, 0, 200, 100⟩).height = ⌊((100 : Int) : ℚ) / (2 : ℚ)⌋ ∧
        ((⟨2, ⟨1/2, 1/2⟩, ⟨100, 100⟩⟩ : scale_around_grab_t).get_bounding_box
            ⟨0, 0, 200, 100⟩ ⟨0, 0, 200, 100⟩).x =
          (100 : Int) - ⌊(1/2 : ℚ) * ((⌊((200 : Int) : ℚ) / (2 : ℚ)⌋ : Int) : ℚ)⌋ ∧
        ((⟨2, ⟨1/2, 1/2⟩, ⟨100, 100⟩⟩ : scale_around_grab_t).get_bounding_box
            ⟨0, 0, 200, 100⟩ ⟨0, 0, 200, 100⟩).y =
          (100 : Int) - ⌊(1/2 : ℚ) * ((⌊((100 : Int) : ℚ) / (2 : ℚ)⌋ : Int) : ℚ)⌋ ∧
        (⟨2, ⟨1/2, 1/2⟩, ⟨100, 100⟩⟩ : scale_around_grab_t).get_bounding_box
            ⟨0, 0, 200, 100⟩ ⟨0, 0, 200, 100⟩ =
          find_geometry_around
            ⟨⌊((200 : Int) : ℚ) / (2 : ℚ)⌋, ⌊((100 : Int) : ℚ) / (2 : ℚ)⌋⟩
            ⟨100, 100⟩ ⟨1/2, 1/2⟩) :=
  ⟨by norm_num,
    C3_bounding_box ⟨2, ⟨1/2, 1/2⟩, ⟨100, 100⟩⟩ ⟨0, 0, 200, 100⟩ ⟨0, 0, 200, 100⟩
      (by norm_num)⟩

end move_drag

end wf
